import Mathlib

/-!
Shallow embedding of the form-validation engine of `src/script.js`
(function `initializeFormValidation`, lines 319-535), together with the
JavaScript string primitives it relies on (`String.prototype.trim`,
`parseInt`, the regular expressions used by the field rules).

Strings are modelled as Lean `String` values; character-level work is done
on `String.data : List Char`.  Where JavaScript measures string length in
UTF-16 code units (`value.length`) we use `utf16Len`.  `parseInt` returning
`NaN` is modelled as `Option.none`.  DOM side effects that carry program
state (the per-field error-message elements, the valid/invalid decoration
classes, the submit button's disabled flag and label, the stored
`validationState` object and the current field values) are modelled
explicitly; purely visual effects (shake/bounce animations, scrolling,
show/hide toggles) carry no state and are elided.
-/

namespace FormApp

/-- The six form fields, in the `Object.keys` insertion order of the
`fields` object (script.js:325-332). -/
inductive FieldName where
  | fullname
  | email
  | password
  | confirmPassword
  | age
  | phone
deriving DecidableEq

/-- The JavaScript property key of each field. -/
def fieldNameStr : FieldName → String
  | .fullname => "fullname"
  | .email => "email"
  | .password => "password"
  | .confirmPassword => "confirmPassword"
  | .age => "age"
  | .phone => "phone"

/-- `Object.keys(fields)` (= `Object.keys(validationState)`) iteration
order. -/
def fieldKeys : List FieldName :=
  [.fullname, .email, .password, .confirmPassword, .age, .phone]

/-- The required-field subset used by `updateSubmitButton`
(script.js:496). -/
def requiredFields : List FieldName :=
  [.fullname, .email, .password, .confirmPassword, .age]

/-! ## JavaScript string primitives -/

/-- The JavaScript white-space set: the characters matched by the regex
class `\s`, removed by `String.prototype.trim`, and skipped by
`parseInt` (WhiteSpace ∪ LineTerminator of the ECMAScript spec). -/
def jsWhitespace (c : Char) : Bool :=
  c.toNat ∈ [9, 10, 11, 12, 13, 32, 0xA0, 0x1680,
    0x2000, 0x2001, 0x2002, 0x2003, 0x2004, 0x2005, 0x2006, 0x2007,
    0x2008, 0x2009, 0x200A, 0x2028, 0x2029, 0x202F, 0x205F, 0x3000, 0xFEFF]

/-- The regex class `[0-9]` (also `\d`). -/
def isAsciiDigit (c : Char) : Bool :=
  48 ≤ c.toNat && c.toNat ≤ 57

/-- The regex class `[a-z]`. -/
def isAsciiLower (c : Char) : Bool :=
  97 ≤ c.toNat && c.toNat ≤ 122

/-- The regex class `[A-Z]`. -/
def isAsciiUpper (c : Char) : Bool :=
  65 ≤ c.toNat && c.toNat ≤ 90

/-- `String.prototype.trim`: drop JavaScript white space from both ends. -/
def jsTrim (s : List Char) : List Char :=
  ((s.dropWhile jsWhitespace).reverse.dropWhile jsWhitespace).reverse

/-- JavaScript `string.length`: the number of UTF-16 code units (characters
above U+FFFF are encoded as surrogate pairs and count twice). -/
def utf16Len (s : List Char) : Nat :=
  (s.map (fun c => if c.toNat < 0x10000 then 1 else 2)).sum

/-- Decimal value of a digit string (most significant first). -/
def digitsToNat (ds : List Char) : Nat :=
  ds.foldl (fun a c => 10 * a + (c.toNat - 48)) 0

/-- Value of a hexadecimal digit, `none` for a non-hex-digit. -/
def hexDigitVal (c : Char) : Option Nat :=
  if 48 ≤ c.toNat && c.toNat ≤ 57 then some (c.toNat - 48)
  else if 97 ≤ c.toNat && c.toNat ≤ 102 then some (c.toNat - 87)
  else if 65 ≤ c.toNat && c.toNat ≤ 70 then some (c.toNat - 55)
  else none

/-- The regex class `[0-9a-fA-F]`. -/
def isHexDigit (c : Char) : Bool :=
  (hexDigitVal c).isSome

/-- Hexadecimal value of a hex-digit string. -/
def hexToNat (ds : List Char) : Nat :=
  ds.foldl (fun a c => 16 * a + ((hexDigitVal c).getD 0)) 0

/-- Longest leading run of decimal digits, `none` (NaN) when there is
none. -/
def decDigitsVal (cs : List Char) : Option Nat :=
  let ds := cs.takeWhile isAsciiDigit
  if ds.isEmpty then none else some (digitsToNat ds)

/-- Longest leading run of hexadecimal digits, `none` (NaN) when there is
none. -/
def hexDigitsVal (cs : List Char) : Option Nat :=
  let ds := cs.takeWhile isHexDigit
  if ds.isEmpty then none else some (hexToNat ds)

/-- `parseInt` after white space and sign have been consumed: a `0x`/`0X`
start selects radix 16, otherwise radix 10 (ECMAScript `parseInt` with no
radix argument). -/
def parseUnsigned (cs : List Char) : Option Nat :=
  match cs with
  | '0' :: 'x' :: rest => hexDigitsVal rest
  | '0' :: 'X' :: rest => hexDigitsVal rest
  | _ => decDigitsVal cs

/-- JavaScript `parseInt(value)` (no radix argument): skip leading white
space, an optional sign, optional `0x`, then the longest digit run;
`NaN` becomes `none`.  (The source compares the result only against 13 and
120, so double-precision rounding of huge results is irrelevant and the
value is modelled exactly.) -/
def jsParseInt (s : String) : Option Int :=
  match s.data.dropWhile jsWhitespace with
  | '-' :: rest => (parseUnsigned rest).map (fun n => -(n : Int))
  | '+' :: rest => (parseUnsigned rest).map (fun n => (n : Int))
  | cs => (parseUnsigned cs).map (fun n => (n : Int))

/-! ## The regular expressions of `validateField` (script.js:387-460) -/

/-- One character of `[a-zA-Z\s]`. -/
def fullnameCharOk (c : Char) : Bool :=
  isAsciiLower c || isAsciiUpper c || jsWhitespace c

/-- `/^[a-zA-Z\s]+$/.test(s)`: non-empty and every character a letter or
white space. -/
def fullnameTest (s : List Char) : Bool :=
  !s.isEmpty && s.all fullnameCharOk

/-- `/^[^\s@]+@[^\s@]+\.[^\s@]+$/.test(s)`.  The regex matches exactly when
`s = a ++ "@" ++ b ++ "." ++ c` with `a`, `b`, `c` non-empty and free of
white space and `@` (so `s` has no white space, exactly one `@`, not at the
start, and the part after the `@` contains a `.` with a non-empty part on
each side). -/
def emailTest (s : List Char) : Bool :=
  s.all (fun c => !jsWhitespace c) &&
  s.countP (fun c => c = '@') = 1 &&
  match s.findIdx? (fun c => c = '@') with
  | none => false
  | some i =>
    decide (0 < i) &&
    (let dom := s.drop (i + 1)
     (List.range dom.length).any (fun j =>
       decide (0 < j) && decide (j + 1 < dom.length) && dom.getD j ' ' = '.'))

/-- The symbol class `[@$!%*?&]` of the password regex. -/
def passwordSpecial (c : Char) : Bool :=
  c = '@' || c = '$' || c = '!' || c = '%' || c = '*' || c = '?' || c = '&'

/-- The body class `[A-Za-z\d@$!%*?&]` of the password regex. -/
def passwordAllowed (c : Char) : Bool :=
  isAsciiLower c || isAsciiUpper c || isAsciiDigit c || passwordSpecial c

/-- `/^(?=.*[a-z])(?=.*[A-Z])(?=.*\d)(?=.*[@$!%*?&])[A-Za-z\d@$!%*?&]{8,}$/.test(s)`.
The anchored body forces every character into the allowed class and at
least 8 of them; since that class contains no line terminators, each
look-ahead `(?=.*X)` reduces to plain existence of a class-`X` character. -/
def passwordTest (s : List Char) : Bool :=
  decide (8 ≤ s.length) && s.all passwordAllowed &&
  s.any isAsciiLower && s.any isAsciiUpper &&
  s.any isAsciiDigit && s.any passwordSpecial

/-- The separator class `[-. ]` of the phone regex. -/
def phoneSep (c : Char) : Bool :=
  c = '-' || c = '.' || c = ' '

/-- Consume exactly `n` decimal digits, returning the rest. -/
def takeDigits : Nat → List Char → Option (List Char)
  | 0, s => some s
  | _ + 1, [] => none
  | n + 1, c :: s => if isAsciiDigit c then takeDigits n s else none

/-- Drop the head character when it satisfies `p` (a `X?` regex item). -/
def dropIf (p : Char → Bool) : List Char → List Char
  | [] => []
  | c :: s => if p c then s else c :: s

/-- `/^\(?([0-9]{3})\)?[-. ]?([0-9]{3})[-. ]?([0-9]{4})$/.test(s)` as a
deterministic scan: each optional item's trigger character (`(`, `)`, `-`,
`.`, space) is never a digit, so consuming it greedily is equivalent to
the backtracking regex. -/
def phoneTest (s : List Char) : Bool :=
  match takeDigits 3 (dropIf (fun c => c = '(') s) with
  | none => false
  | some s2 =>
    match takeDigits 3 (dropIf phoneSep (dropIf (fun c => c = ')') s2)) with
    | none => false
    | some s5 =>
      match takeDigits 4 (dropIf phoneSep s5) with
      | none => false
      | some s7 => s7.isEmpty

/-! ## The per-field validation rules (the `switch` of `validateField`,
script.js:395-460).  Each rule yields `(isValid, errorMessage)`; the
confirm-password rule reads the current password field value. -/

/-- The `switch (fieldName)` of `validateField`: the pure
`(isValid, errorMessage)` computation, before the DOM/state side effects.
`passwordValue` is `fields.password.value`, read by the `confirmPassword`
case. -/
def fieldRule (name : FieldName) (value : String) (passwordValue : String) :
    Bool × String :=
  match name with
  | .fullname =>
    if utf16Len (jsTrim value.data) < 2 then
      (false, "Full name must be at least 2 characters long.")
    else if !fullnameTest (jsTrim value.data) then
      (false, "Full name can only contain letters and spaces.")
    else (true, "")
  | .email =>
    if (jsTrim value.data).isEmpty then
      (false, "Email address is required.")
    else if !emailTest value.data then
      (false, "Please enter a valid email address.")
    else (true, "")
  | .password =>
    if utf16Len value.data < 8 then
      (false, "Password must be at least 8 characters long.")
    else if !passwordTest value.data then
      (false, "Password must contain uppercase, lowercase, number, and special character.")
    else (true, "")
  | .confirmPassword =>
    if value = "" then
      (false, "Please confirm your password.")
    else if value ≠ passwordValue then
      (false, "Passwords do not match.")
    else (true, "")
  | .age =>
    if value = "" then
      (false, "Age is required.")
    else
      match jsParseInt value with
      | none => (false, "Age must be between 13 and 120.")
      | some n =>
        if n < 13 || 120 < n then (false, "Age must be between 13 and 120.")
        else (true, "")
  | .phone =>
    if (jsTrim value.data).isEmpty then
      (true, "")
    else if !phoneTest value.data then
      (false, "Please enter a valid phone number (e.g., (123) 456-7890).")
    else (true, "")

/-! ## Form state, field values and the DOM elements the handlers touch -/

/-- The current `value` of each input element. -/
structure FormValues where
  fullname : String
  email : String
  password : String
  confirmPassword : String
  age : String
  phone : String
deriving DecidableEq

/-- `fields[name].value`. -/
def getValue (v : FormValues) : FieldName → String
  | .fullname => v.fullname
  | .email => v.email
  | .password => v.password
  | .confirmPassword => v.confirmPassword
  | .age => v.age
  | .phone => v.phone

/-- All inputs empty, as after `form.reset()` on a form without default
values. -/
def emptyValues : FormValues :=
  ⟨"", "", "", "", "", ""⟩

/-- The `validationState` object (script.js:335-342): one validity boolean
per field. -/
structure FormState where
  fullname : Bool
  email : Bool
  password : Bool
  confirmPassword : Bool
  age : Bool
  phone : Bool
deriving DecidableEq

/-- `validationState[name]`. -/
def getState (st : FormState) : FieldName → Bool
  | .fullname => st.fullname
  | .email => st.email
  | .password => st.password
  | .confirmPassword => st.confirmPassword
  | .age => st.age
  | .phone => st.phone

/-- `validationState[name] = b`. -/
def setState (st : FormState) : FieldName → Bool → FormState
  | .fullname, b => { st with fullname := b }
  | .email, b => { st with email := b }
  | .password, b => { st with password := b }
  | .confirmPassword, b => { st with confirmPassword := b }
  | .age, b => { st with age := b }
  | .phone, b => { st with phone := b }

/-- The literal initializer of `validationState`: all required fields
`false`, the optional `phone` field `true` (script.js:335-342). -/
def initState : FormState :=
  ⟨false, false, false, false, false, true⟩

/-- The `valid`/`invalid` CSS decoration on an input element (at most one
of the two classes is ever present). -/
inductive FieldClass where
  | noDecor
  | valid
  | invalid
deriving DecidableEq

/-- The decoration class of each input element. -/
structure FieldClasses where
  fullname : FieldClass
  email : FieldClass
  password : FieldClass
  confirmPassword : FieldClass
  age : FieldClass
  phone : FieldClass
deriving DecidableEq

/-- Set the decoration class of one input element. -/
def setClass (cl : FieldClasses) : FieldName → FieldClass → FieldClasses
  | .fullname, c => { cl with fullname := c }
  | .email, c => { cl with email := c }
  | .password, c => { cl with password := c }
  | .confirmPassword, c => { cl with confirmPassword := c }
  | .age, c => { cl with age := c }
  | .phone, c => { cl with phone := c }

/-- Modelled from the spec: `index.html` is not part of `src/`, so the
error-message elements of the presentation layer are reconstructed from
the spec's output contract (per-field message text) and from the ids
`validateField` addresses (script.js:388-391): one element per field, the
one for `confirmPassword` having id `confirm-password-error` (the comment
at script.js:389 records that name mismatch).  The structure holds each
element's `textContent`. -/
structure ErrorDoc where
  fullnameError : String
  emailError : String
  passwordError : String
  confirmPasswordError : String
  ageError : String
  phoneError : String
deriving DecidableEq

/-- `document.getElementById(id).textContent = text`, `none` when no
element has the given id (in JavaScript the subsequent property write on
`null` throws a `TypeError`). -/
def setTextById (doc : ErrorDoc) (id text : String) : Option ErrorDoc :=
  if id = "fullname-error" then some { doc with fullnameError := text }
  else if id = "email-error" then some { doc with emailError := text }
  else if id = "password-error" then some { doc with passwordError := text }
  else if id = "confirm-password-error" then
    some { doc with confirmPasswordError := text }
  else if id = "age-error" then some { doc with ageError := text }
  else if id = "phone-error" then some { doc with phoneError := text }
  else none

/-- The whole mutable state the validation engine touches: input values,
`validationState`, decoration classes, error-message elements, and the
submit button's `disabled` flag and label. -/
structure Env where
  values : FormValues
  state : FormState
  classes : FieldClasses
  doc : ErrorDoc
  submitDisabled : Bool
  submitLabel : String
deriving DecidableEq

/-- The error-element id computed at script.js:390:
`confirm-password-error` for `confirmPassword`, `` `${fieldName}-error` ``
otherwise. -/
def errorElementId (name : FieldName) : String :=
  if name = .confirmPassword then "confirm-password-error"
  else fieldNameStr name ++ "-error"

/-! ## The stateful operations.  Fallible DOM writes give each operation
type `Except (String × Env) _`: an error carries the thrown message
together with the state at the moment of the throw (mutations made before
the throw persist, as in JavaScript). -/

/-- `updateFieldAppearance` (script.js:476-490): drop both decoration
classes; while the field has (trimmed) content, decorate it valid/invalid
and show the message when invalid; in every branch assign the error
element's `textContent` (throwing when the element is missing).
`fieldVal` is `field.value`. -/
def updateFieldAppearance (name : FieldName) (fieldVal : String)
    (isValid : Bool) (msg : String) (env : Env) : Except (String × Env) Env :=
  let env1 : Env := { env with classes := setClass env.classes name .noDecor }
  if (jsTrim fieldVal.data).isEmpty then
    match setTextById env1.doc (errorElementId name) "" with
    | some d => .ok { env1 with doc := d }
    | none => .error ("TypeError: Cannot set properties of null", env1)
  else if isValid then
    let env2 : Env := { env1 with classes := setClass env1.classes name .valid }
    match setTextById env2.doc (errorElementId name) "" with
    | some d => .ok { env2 with doc := d }
    | none => .error ("TypeError: Cannot set properties of null", env2)
  else
    let env2 : Env := { env1 with classes := setClass env1.classes name .invalid }
    match setTextById env2.doc (errorElementId name) msg with
    | some d => .ok { env2 with doc := d }
    | none => .error ("TypeError: Cannot set properties of null", env2)

/-- `validateField(fieldName, value)` (script.js:387-467): run the rule,
update the field appearance, store the result in `validationState`, and
return it. -/
def validateField (name : FieldName) (value : String) (env : Env) :
    Except (String × Env) (Bool × Env) :=
  let r := fieldRule name value env.values.password
  match updateFieldAppearance name (getValue env.values name) r.1 r.2 env with
  | .error e => .error e
  | .ok env1 => .ok (r.1, { env1 with state := setState env1.state name r.1 })

/-- `updateSubmitButton` (script.js:495-506): disable the button unless
every required field's stored validity is true, and set its label. -/
def updateSubmitButton (env : Env) : Env :=
  let allRequiredValid := requiredFields.all (getState env.state)
  { env with
    submitDisabled := !allRequiredValid
    submitLabel :=
      if allRequiredValid then "✅ Submit Form"
      else "📋 Complete Required Fields" }

/-- The listener attached to both the `input` and the `blur` event of each
field (script.js:345-359): revalidate that field, then refresh the submit
button. -/
def onFieldEvent (name : FieldName) (env : Env) : Except (String × Env) Env :=
  match validateField name (getValue env.values name) env with
  | .error e => .error e
  | .ok (_, env1) => .ok (updateSubmitButton env1)

/-- The `Object.keys(fields).forEach` of the submit handler
(script.js:367-370): validate each field with its current value,
accumulating `allValid`. -/
def submitFold : List FieldName → Bool → Env → Except (String × Env) (Bool × Env)
  | [], allValid, env => .ok (allValid, env)
  | f :: rest, allValid, env =>
    match validateField f (getValue env.values f) env with
    | .error e => .error e
    | .ok (isValid, env1) => submitFold rest (allValid && isValid) env1

/-- The form `submit` handler (script.js:362-379): after
`event.preventDefault()`, revalidate every field; the returned boolean is
`allValid` (on `true` the handler shows the success message and schedules
`resetCallback`; on `false` it plays the shake animation — both
display-only). -/
def onSubmit (env : Env) : Except (String × Env) (Bool × Env) :=
  submitFold fieldKeys true env

/-- The loop body of the delayed reset (script.js:526-530): for each key of
`validationState`, set it false, drop the decoration classes, and clear
`` `${field}-error` ``'s text — note this id, unlike `errorElementId`,
is `confirmPassword-error` for the `confirmPassword` key. -/
def resetFold : List FieldName → Env → Except (String × Env) Env
  | [], env => .ok env
  | f :: rest, env =>
    let env1 : Env :=
      { env with
        state := setState env.state f false
        classes := setClass env.classes f .noDecor }
    match setTextById env1.doc (fieldNameStr f ++ "-error") "" with
    | some d => resetFold rest { env1 with doc := d }
    | none => .error ("TypeError: Cannot set properties of null", env1)

/-- The `setTimeout` body of `showSuccessMessage` (script.js:520-533):
`form.reset()` clears every input value, the display toggles are
visual-only, then the state/appearance loop runs and finally
`updateSubmitButton`. -/
def resetCallback (env : Env) : Except (String × Env) Env :=
  match resetFold fieldKeys { env with values := emptyValues } with
  | .error e => .error e
  | .ok env1 => .ok (updateSubmitButton env1)

/-- Per-field revalidation of a whole snapshot of values: the state the
submit handler leaves behind. -/
def recomputeState (v : FormValues) : FormState where
  fullname := (fieldRule .fullname v.fullname v.password).1
  email := (fieldRule .email v.email v.password).1
  password := (fieldRule .password v.password v.password).1
  confirmPassword := (fieldRule .confirmPassword v.confirmPassword v.password).1
  age := (fieldRule .age v.age v.password).1
  phone := (fieldRule .phone v.phone v.password).1

/-! ## Concrete environments used as test inputs -/

/-- All error-message elements blank. -/
def blankDoc : ErrorDoc := ⟨"", "", "", "", "", ""⟩

/-- No decoration on any input. -/
def noDecorClasses : FieldClasses :=
  ⟨.noDecor, .noDecor, .noDecor, .noDecor, .noDecor, .noDecor⟩

/-- Reachable state: every required field holds a valid value, the
optional phone field holds the malformed value "12345" (typing it
revalidated phone to `false`, which does not disable the submit
button). -/
def envPhoneBad : Env where
  values := ⟨"Jo", "a@b.co", "Abcd12!@", "Abcd12!@", "25", "12345"⟩
  state := ⟨true, true, true, true, true, false⟩
  classes := ⟨.valid, .valid, .valid, .valid, .valid, .invalid⟩
  doc := { blankDoc with phoneError := "Please enter a valid phone number (e.g., (123) 456-7890)." }
  submitDisabled := false
  submitLabel := "✅ Submit Form"

/-- Reachable state with a stale confirm-password entry: both password
fields were filled with "Abcd12!@" (validating `confirmPassword` to
`true`), then the password was edited to "Abcd12!@x" — an edit that
revalidates only the password field, leaving `confirmPassword`'s stored
validity `true` while the values now differ. -/
def envStaleConfirm : Env where
  values := ⟨"Jo", "a@b.co", "Abcd12!@x", "Abcd12!@", "25", ""⟩
  state := ⟨true, true, true, true, true, true⟩
  classes := ⟨.valid, .valid, .valid, .valid, .valid, .noDecor⟩
  doc := blankDoc
  submitDisabled := false
  submitLabel := "✅ Submit Form"

/-- Reachable state right after the user replaced the password with the
single character "x": the password-field event revalidated `password` to
`false` but left `confirmPassword`'s stored validity `true`, although the
values no longer match. -/
def envC4Pre : Env where
  values := ⟨"Jo", "a@b.co", "x", "Abcd12!@", "25", ""⟩
  state := ⟨true, true, false, true, true, true⟩
  classes := ⟨.valid, .valid, .invalid, .valid, .valid, .noDecor⟩
  doc := { blankDoc with passwordError := "Password must be at least 8 characters long." }
  submitDisabled := true
  submitLabel := "📋 Complete Required Fields"

/-- The state at the moment the 5-second reset timeout fires after a
successful submission: every field (phone included) revalidated `true`. -/
def envPostSuccess : Env where
  values := ⟨"Jo", "a@b.co", "Abcd12!@", "Abcd12!@", "25", ""⟩
  state := ⟨true, true, true, true, true, true⟩
  classes := ⟨.valid, .valid, .valid, .valid, .valid, .noDecor⟩
  doc := blankDoc
  submitDisabled := false
  submitLabel := "✅ Submit Form"

/-- The environment the submit handler leaves behind on `envPhoneBad`. -/
def envPhoneBadAfter : Env :=
  match onSubmit envPhoneBad with
  | .ok (_, e) => e
  | .error (_, e) => e

/-- The environment the submit handler leaves behind on
`envStaleConfirm`. -/
def envStaleConfirmAfter : Env :=
  match onSubmit envStaleConfirm with
  | .ok (_, e) => e
  | .error (_, e) => e

/-- The environment the password-field event leaves behind on
`envC4Pre`. -/
def envC4AfterPwEvent : Env :=
  match onFieldEvent .password envC4Pre with
  | .ok e => e
  | .error (_, e) => e

/-- The environment the confirm-password-field event leaves behind on
`envC4Pre`. -/
def envC4AfterConfirmEvent : Env :=
  match onFieldEvent .confirmPassword envC4Pre with
  | .ok e => e
  | .error (_, e) => e


/-! ## Helper lemmas -/

/-- `updateFieldAppearance` never throws: `validateField` addresses the
error elements through `errorElementId`, and the document has an element
for each of the six ids so computed.  Only the decoration classes and the
error texts change. -/
theorem updateFieldAppearance_ok (name : FieldName) (fieldVal : String)
    (isValid : Bool) (msg : String) (env : Env) :
    ∃ cl d, updateFieldAppearance name fieldVal isValid msg env =
      .ok { env with classes := cl, doc := d } := by
  cases name <;>
    (unfold updateFieldAppearance; split <;> (try split) <;> exact ⟨_, _, rfl⟩)

/-- `validateField` always succeeds, returns the pure rule result, stores
it in `validationState`, and touches nothing else but decoration classes
and error texts. -/
theorem validateField_ok (name : FieldName) (value : String) (env : Env) :
    ∃ cl d,
      validateField name value env =
        .ok ((fieldRule name value env.values.password).1,
          { env with
              state := setState env.state name
                (fieldRule name value env.values.password).1
              classes := cl
              doc := d }) := by
  obtain ⟨cl, d, h⟩ := updateFieldAppearance_ok name (getValue env.values name)
    (fieldRule name value env.values.password).1
    (fieldRule name value env.values.password).2 env
  refine ⟨cl, d, ?_⟩
  simp only [validateField]
  rw [h]

/-- The field-event listener always succeeds; it stores the freshly
computed validity of the named field and leaves the other state entries
and all values alone. -/
theorem onFieldEvent_ok (name : FieldName) (env : Env) :
    ∃ env1, onFieldEvent name env = .ok env1
      ∧ env1.values = env.values
      ∧ env1.state = setState env.state name
          (fieldRule name (getValue env.values name) env.values.password).1 := by
  obtain ⟨cl, d, h⟩ := validateField_ok name (getValue env.values name) env
  refine ⟨updateSubmitButton
    { env with
        state := setState env.state name
          (fieldRule name (getValue env.values name) env.values.password).1
        classes := cl
        doc := d }, ?_, rfl, rfl⟩
  simp only [onFieldEvent]
  rw [h]

/-- What the submit handler's validation loop does on any list of fields:
it succeeds, returns the conjunction of the per-field rule results for the
current values, leaves the values untouched, and overwrites the stored
validity of each visited field with its freshly computed value. -/
theorem submitFold_spec (l : List FieldName) (acc : Bool) (env : Env) :
    ∃ env1,
      submitFold l acc env =
        .ok (acc && l.all
          (fun f => (fieldRule f (getValue env.values f) env.values.password).1),
          env1)
      ∧ env1.values = env.values
      ∧ env1.state = l.foldl
          (fun st f => setState st f
            (fieldRule f (getValue env.values f) env.values.password).1)
          env.state := by
  induction l generalizing acc env with
  | nil => exact ⟨env, by simp [submitFold], rfl, rfl⟩
  | cons f rest ih =>
    obtain ⟨cl, d, h⟩ := validateField_ok f (getValue env.values f) env
    obtain ⟨env2, h2, hv2, hs2⟩ := ih
      (acc && (fieldRule f (getValue env.values f) env.values.password).1)
      { env with
          state := setState env.state f
            (fieldRule f (getValue env.values f) env.values.password).1
          classes := cl
          doc := d }
    refine ⟨env2, ?_, hv2, ?_⟩
    · simp only [submitFold]
      rw [h]
      dsimp only
      rw [h2]
      simp [Bool.and_assoc]
    · rw [hs2]
      rfl

/-- The submit handler always succeeds; `allValid` is the conjunction of
all six field rules over the current values, and the stored state it
leaves behind is the per-field revalidation of those values. -/
theorem onSubmit_spec (env : Env) :
    ∃ env1,
      onSubmit env =
        .ok (fieldKeys.all
          (fun f => (fieldRule f (getValue env.values f) env.values.password).1),
          env1)
      ∧ env1.values = env.values
      ∧ env1.state = recomputeState env.values := by
  obtain ⟨env1, h, hv, hs⟩ := submitFold_spec fieldKeys true env
  refine ⟨env1, ?_, hv, ?_⟩
  · simpa using h
  · rw [hs]; rfl

/-- The delayed reset always throws: after `form.reset()`, the loop
handles `fullname`, `email` and `password` (setting their state false,
dropping their decoration and clearing their error text), then at the
`confirmPassword` key computes the element id `confirmPassword-error` —
an id no element has (validation uses `confirm-password-error`) — so the
`textContent` write throws; the `age` and `phone` entries and error texts
are untouched and `updateSubmitButton` never runs. -/
theorem resetCallback_spec (env : Env) :
    resetCallback env =
      .error ("TypeError: Cannot set properties of null",
        { values := emptyValues
          state :=
            { fullname := false, email := false, password := false,
              confirmPassword := false, age := env.state.age,
              phone := env.state.phone }
          classes :=
            { fullname := .noDecor, email := .noDecor, password := .noDecor,
              confirmPassword := .noDecor, age := env.classes.age,
              phone := env.classes.phone }
          doc :=
            { fullnameError := "", emailError := "", passwordError := "",
              confirmPasswordError := env.doc.confirmPasswordError,
              ageError := env.doc.ageError, phoneError := env.doc.phoneError }
          submitDisabled := env.submitDisabled
          submitLabel := env.submitLabel }) := rfl

/-! ## Arithmetic facts about the character classes -/

/-- Every character of the password regex's body class lies in the Basic
Multilingual Plane (they are all ASCII), so it occupies one UTF-16 code
unit. -/
theorem passwordAllowed_bmp (c : Char) (h : passwordAllowed c = true) :
    c.toNat < 0x10000 := by
  simp only [passwordAllowed, isAsciiLower, isAsciiUpper, isAsciiDigit,
    passwordSpecial, Bool.or_eq_true, Bool.and_eq_true, decide_eq_true_eq] at h
  rcases h with (((h | h) | h) | h)
  · omega
  · omega
  · omega
  · rcases h with ((((((h | h) | h) | h) | h) | h) | h) <;> (subst h; decide)

/-- On a string of body-class characters, the UTF-16 length is the
character count. -/
theorem utf16Len_eq_length (s : List Char) (h : s.all passwordAllowed = true) :
    utf16Len s = s.length := by
  induction s with
  | nil => rfl
  | cons c t ih =>
    simp only [List.all_cons, Bool.and_eq_true] at h
    have hb := passwordAllowed_bmp c h.1
    have h1 : utf16Len (c :: t) = 1 + utf16Len t := by
      simp [utf16Len, hb]
    rw [h1, ih h.2, List.length_cons]
    omega

/-- A decimal digit is not JavaScript white space. -/
theorem digit_not_ws (c : Char) (h : isAsciiDigit c = true) :
    jsWhitespace c = false := by
  simp only [isAsciiDigit, Bool.and_eq_true, decide_eq_true_eq] at h
  simp only [jsWhitespace, decide_eq_false_iff_not, List.mem_cons,
    List.not_mem_nil, or_false]
  omega

/-- `takeWhile` over a block satisfying `p` followed by a non-`p` head
returns exactly the block. -/
theorem takeWhile_block (p : Char → Bool) (d r : List Char)
    (hd : d.all p = true) (hr : ∀ c, r.head? = some c → p c = false) :
    (d ++ r).takeWhile p = d := by
  induction d with
  | nil =>
    cases r with
    | nil => rfl
    | cons c t => simp [List.takeWhile_cons, hr c rfl]
  | cons c t ih =>
    simp only [List.all_cons, Bool.and_eq_true] at hd
    simp [List.takeWhile_cons, hd.1, ih hd.2]

/-- `parseInt` on a string that starts with a maximal run of at least two
decimal digits (more precisely: whose decimal value is at least 13, which
forces at least two digits) returns that run's decimal value: no white
space is skipped, no sign or `0x` prefix can intervene, and scanning
stops at the first non-digit. -/
theorem jsParseInt_digits (d r : List Char) (hd : d ≠ [])
    (hall : d.all isAsciiDigit = true)
    (hr : ∀ c, r.head? = some c → isAsciiDigit c = false)
    (h13 : 13 ≤ digitsToNat d) :
    jsParseInt (String.mk (d ++ r)) = some ((digitsToNat d : Nat) : Int) := by
  obtain ⟨a, t, rfl⟩ : ∃ a t, d = a :: t := by
    cases d with
    | nil => exact absurd rfl hd
    | cons a t => exact ⟨a, t, rfl⟩
  obtain ⟨b, u, rfl⟩ : ∃ b u, t = b :: u := by
    cases t with
    | nil =>
      exfalso
      simp only [List.all_cons, List.all_nil, Bool.and_true, isAsciiDigit,
        Bool.and_eq_true, decide_eq_true_eq] at hall
      simp only [digitsToNat, List.foldl] at h13
      omega
    | cons b u => exact ⟨b, u, rfl⟩
  have ha : isAsciiDigit a = true := by
    simp only [List.all_cons, Bool.and_eq_true] at hall
    exact hall.1
  have hb : isAsciiDigit b = true := by
    simp only [List.all_cons, Bool.and_eq_true] at hall
    exact hall.2.1
  have ha' : 48 ≤ a.toNat ∧ a.toNat ≤ 57 := by
    simpa [isAsciiDigit, Bool.and_eq_true, decide_eq_true_eq] using ha
  have hb' : 48 ≤ b.toNat ∧ b.toNat ≤ 57 := by
    simpa [isAsciiDigit, Bool.and_eq_true, decide_eq_true_eq] using hb
  have hdrop : List.dropWhile jsWhitespace (a :: (b :: (u ++ r))) =
      a :: (b :: (u ++ r)) := by
    have hws := digit_not_ws a ha
    rw [List.dropWhile_cons, if_neg (by simp [hws])]
  have hunsigned : parseUnsigned (a :: (b :: (u ++ r))) =
      some (digitsToNat (a :: b :: u)) := by
    have htake : (a :: (b :: (u ++ r))).takeWhile isAsciiDigit =
        a :: b :: u := by
      have h0 := takeWhile_block isAsciiDigit (a :: b :: u) r hall hr
      simpa [List.cons_append] using h0
    unfold parseUnsigned
    split
    · exfalso
      rename_i heq
      injection heq with h1 h2
      injection h2 with h3 h4
      subst h3
      exact absurd hb' (by decide)
    · exfalso
      rename_i heq
      injection heq with h1 h2
      injection h2 with h3 h4
      subst h3
      exact absurd hb' (by decide)
    · unfold decDigitsVal
      rw [htake]
      rfl
  show jsParseInt ⟨(a :: b :: u) ++ r⟩ = _
  rw [show (⟨(a :: b :: u) ++ r⟩ : String) = ⟨a :: (b :: (u ++ r))⟩ from rfl]
  unfold jsParseInt
  rw [show (String.mk (a :: (b :: (u ++ r)))).data = a :: (b :: (u ++ r)) from rfl,
    hdrop]
  split
  · exfalso
    rename_i heq
    injection heq with h1 h2
    subst h1
    exact absurd ha' (by decide)
  · exfalso
    rename_i heq
    injection heq with h1 h2
    subst h1
    exact absurd ha' (by decide)
  · rw [hunsigned]
    rfl

/-! ## Claims -/

/-- C1, counterexample: with every required field valid and the malformed
optional phone value "12345", the submit-button affordance permits
submission (`submitDisabled = false`), yet the submit handler — after
revalidating all fields — rejects (`allValid = false`) even though every
required field revalidates to `true`.  The claim's "permitted iff every
required field valid" therefore fails for the handler. -/
theorem c1_counterexample :
    envPhoneBad.submitDisabled = false
    ∧ (onSubmit envPhoneBad).map
        (fun p => (p.1, requiredFields.all (getState p.2.state))) =
      .ok (false, true) := by
  exact ⟨rfl, rfl⟩

/-- C1, amended: the submit-button affordance is enabled exactly when
every required field's stored validity is true (phone excluded), but the
submit handler permits submission exactly when all six fields — phone
included — validate against their current values (an empty phone
validates true, so phone blocks only when non-empty and malformed). -/
theorem c1_submission_gating (env : Env) :
    ((updateSubmitButton env).submitDisabled = false ↔
      requiredFields.all (getState env.state) = true)
    ∧ ∀ b env1, onSubmit env = .ok (b, env1) →
        b = fieldKeys.all
          (fun f => (fieldRule f (getValue env.values f) env.values.password).1) := by
  constructor
  · simp [updateSubmitButton]
  · intro b env1 h
    obtain ⟨env2, h2, _, _⟩ := onSubmit_spec env
    rw [h] at h2
    injection h2 with h3
    exact (Prod.ext_iff.mp h3).1

/-- Witness for C1: instantiating the amended theorem at `envPhoneBad`
shows the enabled button and the handler's rejection concretely. -/
theorem c1_submission_gating_witness :
    (updateSubmitButton envPhoneBad).submitDisabled = false
    ∧ false = fieldKeys.all
        (fun f => (fieldRule f (getValue envPhoneBad.values f)
          envPhoneBad.values.password).1) := by
  constructor
  · exact ((c1_submission_gating envPhoneBad).1).mpr (by rfl)
  · exact (c1_submission_gating envPhoneBad).2 false envPhoneBadAfter (by rfl)

/-- C2, counterexample: starting from the reachable stale state
`envStaleConfirm` (stored `confirmPassword` validity `true`, values
mismatching), the submit handler takes the rejection path (`allValid =
false`) and flips the stored `confirmPassword` entry from `true` to
`false` — so FormState is altered on the error path. -/
theorem c2_counterexample :
    (onSubmit envStaleConfirm).map
      (fun p => (p.1, p.2.state.confirmPassword)) = .ok (false, false)
    ∧ envStaleConfirm.state.confirmPassword = true := by
  exact ⟨rfl, rfl⟩

/-- C2, amended: on any submit — the rejection path included — the handler
leaves the field values unchanged but overwrites every FormState entry
with the freshly revalidated result for the current values; an entry whose
stored validity was stale therefore changes. -/
theorem c2_submit_overwrites_state (env env1 : Env) (b : Bool)
    (h : onSubmit env = .ok (b, env1)) :
    env1.values = env.values ∧ env1.state = recomputeState env.values := by
  obtain ⟨env2, h2, hv, hs⟩ := onSubmit_spec env
  rw [h] at h2
  injection h2 with h3
  have he : env1 = env2 := (Prod.ext_iff.mp h3).2
  exact ⟨he ▸ hv, he ▸ hs⟩

/-- Witness for C2: the amended theorem applied to the concrete rejected
submission on `envStaleConfirm`. -/
theorem c2_submit_overwrites_state_witness :
    envStaleConfirmAfter.values = envStaleConfirm.values
    ∧ envStaleConfirmAfter.state = recomputeState envStaleConfirm.values :=
  c2_submit_overwrites_state envStaleConfirm envStaleConfirmAfter false (by rfl)

/-- C3: the delayed reset is broken.  On the concrete post-success state it
throws (the loop looks up the non-existent element `confirmPassword-error`),
the `age` and `phone` FormState entries keep their pre-reset value `true`
instead of returning to their initial mount values (`false` for `age`),
and the submit affordance is never recomputed. -/
theorem c3_reset_does_not_restore :
    ∃ env1,
      resetCallback envPostSuccess =
        .error ("TypeError: Cannot set properties of null", env1)
      ∧ env1.state ≠ initState
      ∧ env1.state.age = true
      ∧ env1.state.phone = true
      ∧ env1.submitDisabled = envPostSuccess.submitDisabled := by
  refine ⟨_, resetCallback_spec envPostSuccess, ?_, rfl, rfl, rfl⟩
  intro h
  have h2 := congrArg FormState.age h
  simp [envPostSuccess, initState] at h2

/-- C4, counterexample: on the reachable state `envC4Pre` (password just
replaced by "x", stored `confirmPassword` validity still `true`), the
password-field event leaves the stored `confirmPassword` validity at
`true` although the rule on the current pair of values yields `false` —
so editing the password does not re-evaluate `confirmPassword`. -/
theorem c4_counterexample :
    (onFieldEvent .password envC4Pre).map
      (fun e => e.state.confirmPassword) = .ok true
    ∧ (fieldRule .confirmPassword envC4Pre.values.confirmPassword
        envC4Pre.values.password).1 = false := by
  exact ⟨rfl, rfl⟩

/-- C4, amended: `confirmPassword` is valid iff its value is non-empty
and equal to the current password value, and its stored validity is
re-evaluated by the confirm-password field's own input/blur events (and by
submit), but a password-field event leaves the stored `confirmPassword`
validity untouched, so it can go stale. -/
theorem c4_confirm_rule (env : Env) :
    ((fieldRule .confirmPassword env.values.confirmPassword
        env.values.password).1 = true ↔
      env.values.confirmPassword ≠ "" ∧
        env.values.confirmPassword = env.values.password)
    ∧ (∀ env1, onFieldEvent .confirmPassword env = .ok env1 →
        env1.state.confirmPassword =
          (fieldRule .confirmPassword env.values.confirmPassword
            env.values.password).1)
    ∧ (∀ env1, onFieldEvent .password env = .ok env1 →
        env1.state.confirmPassword = env.state.confirmPassword) := by
  refine ⟨?_, ?_, ?_⟩
  · simp only [fieldRule]
    by_cases h1 : env.values.confirmPassword = ""
    · simp [h1]
    · by_cases h2 : env.values.confirmPassword = env.values.password
      · have h3 : env.values.password ≠ "" := h2 ▸ h1
        simp [h1, h2, h3]
      · simp [h1, h2]
  · intro env1 h
    obtain ⟨env2, h2, hv, hs⟩ := onFieldEvent_ok .confirmPassword env
    rw [h] at h2
    injection h2 with h3
    subst h3
    rw [hs]
    rfl
  · intro env1 h
    obtain ⟨env2, h2, hv, hs⟩ := onFieldEvent_ok .password env
    rw [h] at h2
    injection h2 with h3
    subst h3
    rw [hs]
    rfl

/-- Witness for C4: the amended theorem applied at `envC4Pre`, for both a
confirm-password event (stored validity becomes the rule value) and a
password event (stored validity untouched). -/
theorem c4_confirm_rule_witness :
    envC4AfterConfirmEvent.state.confirmPassword =
      (fieldRule .confirmPassword envC4Pre.values.confirmPassword
        envC4Pre.values.password).1
    ∧ envC4AfterPwEvent.state.confirmPassword =
        envC4Pre.state.confirmPassword := by
  constructor
  · exact (c4_confirm_rule envC4Pre).2.1 envC4AfterConfirmEvent (by rfl)
  · exact (c4_confirm_rule envC4Pre).2.2 envC4AfterPwEvent (by rfl)

/-- C5, counterexample: "Abcd12!#" has 8 UTF-16 code units and contains a
lowercase letter, an uppercase letter, a digit and a symbol from the
allowed set, so the claim calls it valid — yet the rule rejects it (the
`#` falls outside the regex's body class). -/
theorem c5_counterexample :
    8 ≤ utf16Len ("Abcd12!#".data)
    ∧ "Abcd12!#".data.any isAsciiLower = true
    ∧ "Abcd12!#".data.any isAsciiUpper = true
    ∧ "Abcd12!#".data.any isAsciiDigit = true
    ∧ "Abcd12!#".data.any passwordSpecial = true
    ∧ (fieldRule .password "Abcd12!#" "").1 = false := by
  decide

/-- C5, amended: the password is valid iff it has at least 8 UTF-16 code
units, every character lies in the allowed class (letters, digits, and
`@$!%*?&`), and it contains at least one lowercase letter, one uppercase
letter, one digit and one symbol of that set; the message is the length
message below 8 code units and the requirements message otherwise.  The
claim's three examples hold. -/
theorem c5_password_rule (value pw : String) :
    ((fieldRule .password value pw).1 =
      (decide (8 ≤ utf16Len value.data) && value.data.all passwordAllowed &&
        value.data.any isAsciiLower && value.data.any isAsciiUpper &&
        value.data.any isAsciiDigit && value.data.any passwordSpecial))
    ∧ ((fieldRule .password value pw).2 =
      if utf16Len value.data < 8 then
        "Password must be at least 8 characters long."
      else if passwordTest value.data then ""
      else "Password must contain uppercase, lowercase, number, and special character.")
    ∧ (fieldRule .password "Abc12345" pw).1 = false
    ∧ (fieldRule .password "Abcd12!@" pw).1 = true
    ∧ (fieldRule .password "short1!" pw).1 = false := by
  refine ⟨?_, ?_, rfl, rfl, rfl⟩
  · simp only [fieldRule]
    by_cases hlen : utf16Len value.data < 8
    · have h8 : decide (8 ≤ utf16Len value.data) = false := by
        simp
        omega
      simp [if_pos hlen, h8]
    · have h8 : decide (8 ≤ utf16Len value.data) = true := by
        simp
        omega
      rw [if_neg hlen]
      by_cases hall : value.data.all passwordAllowed = true
      · have hl := utf16Len_eq_length value.data hall
        have hdl : decide (8 ≤ value.data.length) = true := by
          simp only [decide_eq_true_eq]
          omega
        cases hpt : passwordTest value.data with
        | false =>
          simp only [passwordTest, hdl, hall, Bool.true_and] at hpt
          simp [hpt, h8, hall, passwordTest, hdl]
        | true =>
          simp only [passwordTest, hdl, hall, Bool.true_and] at hpt
          simp [hpt, h8, hall, passwordTest, hdl]
      · have hall' : value.data.all passwordAllowed = false := by
          simpa using hall
        have hpt : passwordTest value.data = false := by
          simp [passwordTest, hall']
        simp [hpt, hall']
  · simp only [fieldRule]
    by_cases hlen : utf16Len value.data < 8
    · simp [if_pos hlen]
    · rw [if_neg hlen, if_neg hlen]
      cases hpt : passwordTest value.data <;> simp [hpt]

/-- C6: the age rule is valid iff the value is non-empty, `parseInt`
yields a number, and that number lies in `[13, 120]`; the spec's five
examples hold. -/
theorem c6_age_rule (value pw : String) :
    ((fieldRule .age value pw).1 = true ↔
      value ≠ "" ∧ ∃ n : Int, jsParseInt value = some n ∧ 13 ≤ n ∧ n ≤ 120)
    ∧ (fieldRule .age "13" pw).1 = true
    ∧ (fieldRule .age "120" pw).1 = true
    ∧ (fieldRule .age "12" pw).1 = false
    ∧ (fieldRule .age "121" pw).1 = false
    ∧ (fieldRule .age "abc" pw).1 = false := by
  refine ⟨?_, rfl, rfl, rfl, rfl, rfl⟩
  simp only [fieldRule]
  by_cases hv : value = ""
  · simp [hv]
  · rw [if_neg hv]
    cases hp : jsParseInt value with
    | none => simp [hv, hp]
    | some n =>
      dsimp only
      by_cases hn : (n < 13 || 120 < n) = true
      · rw [if_pos hn]
        simp only [Bool.or_eq_true, decide_eq_true_eq] at hn
        simp [hv]
        omega
      · rw [if_neg hn]
        simp only [Bool.or_eq_true, decide_eq_true_eq, not_or, not_lt] at hn
        simp [hv]
        omega

/-- C7: for every field name and every input string (and any state of the
form), `validateField` succeeds — it never throws — and returns the pure
rule result, whose message accompanies the validity boolean as data. -/
theorem c7_validateField_total (name : FieldName) (value : String) (env : Env) :
    ∃ env1, validateField name value env =
      .ok ((fieldRule name value env.values.password).1, env1) := by
  obtain ⟨cl, d, h⟩ := validateField_ok name value env
  exact ⟨_, h⟩

/-- C8: from any state, the delayed reset loop throws a `TypeError` after
processing exactly the first four keys in declaration order: it looks up
`confirmPassword-error`, which does not exist (validation uses
`confirm-password-error` instead), so `fullname`, `email`, `password` and
`confirmPassword` are set to `false` while the `age` and `phone` entries
are never reset. -/
theorem c8_reset_faults_at_confirmPassword (env : Env) :
    ∃ env1,
      resetCallback env =
        .error ("TypeError: Cannot set properties of null", env1)
      ∧ env1.state.fullname = false
      ∧ env1.state.email = false
      ∧ env1.state.password = false
      ∧ env1.state.confirmPassword = false
      ∧ env1.state.age = env.state.age
      ∧ env1.state.phone = env.state.phone
      ∧ setTextById env.doc (fieldNameStr .confirmPassword ++ "-error") "" = none
      ∧ errorElementId .confirmPassword = "confirm-password-error" := by
  exact ⟨_, resetCallback_spec env, rfl, rfl, rfl, rfl, rfl, rfl, rfl, rfl⟩

/-- C9: any value whose maximal leading digit run evaluates to a number in
`[13, 120]` is accepted by the age rule, whatever follows the digits —
`parseInt` stops at the first non-digit. -/
theorem c9_age_digit_run (d r : List Char) (pw : String)
    (hd : d ≠ []) (hall : d.all isAsciiDigit = true)
    (hr : r.head?.all (fun c => !isAsciiDigit c) = true)
    (hlo : 13 ≤ digitsToNat d) (hhi : digitsToNat d ≤ 120) :
    (fieldRule .age (String.mk (d ++ r)) pw).1 = true := by
  have hr' : ∀ c, r.head? = some c → isAsciiDigit c = false := by
    intro c hc
    rw [hc] at hr
    simpa using hr
  have hp := jsParseInt_digits d r hd hall hr' hlo
  have hne : String.mk (d ++ r) ≠ "" := by
    intro h
    apply hd
    have h2 : d ++ r = [] := congrArg String.data h
    exact (List.append_eq_nil.mp h2).1
  simp [fieldRule, if_neg hne, hp]
  rw [if_neg (by omega)]

/-- Witness for C9: "13abc" (digit run "13", tail "abc") is accepted. -/
theorem c9_age_digit_run_witness :
    (fieldRule .age (String.mk (['1', '3'] ++ ['a', 'b', 'c'])) "").1 = true :=
  c9_age_digit_run ['1', '3'] ['a', 'b', 'c'] "" (by decide) (by decide)
    (by decide) (by decide) (by decide)

/-- C10: a password containing any character outside the allowed class
(ASCII letters, digits, `@$!%*?&`) is rejected, whatever else it
contains. -/
theorem c10_password_charset (value pw : String) (c : Char)
    (hc : c ∈ value.data) (hbad : passwordAllowed c = false) :
    (fieldRule .password value pw).1 = false := by
  have hall : value.data.all passwordAllowed = false := by
    cases h : value.data.all passwordAllowed
    · rfl
    · exact absurd (List.all_eq_true.mp h c hc) (by simp [hbad])
  have hpt : passwordTest value.data = false := by
    simp [passwordTest, hall]
  simp only [fieldRule]
  split
  · rfl
  · simp [hpt]

/-- Witness for C10: "Abcd12!#" is rejected because of the `#`, although
it is 8 characters long and has all four required character kinds. -/
theorem c10_password_charset_witness :
    (fieldRule .password "Abcd12!#" "").1 = false :=
  c10_password_charset "Abcd12!#" "" '#' (by decide) (by decide)

/-! ## Sanity checks: the spec's test table (section 8) and the handler
runs on the concrete environments -/

example : (fieldRule .fullname "Jo" "").1 = true := by decide
example : (fieldRule .fullname "J" "").1 = false := by decide
example : (fieldRule .fullname "John3" "").1 = false := by decide
example : (fieldRule .email "a@b.co" "").1 = true := by decide
example : (fieldRule .email "" "").1 = false := by decide
example : (fieldRule .email "a@b" "").1 = false := by decide
example : (fieldRule .password "Abc12345" "").1 = false := by decide
example : (fieldRule .password "Abcd12!@" "").1 = true := by decide
example : (fieldRule .password "short1!" "").1 = false := by decide
example : (fieldRule .confirmPassword "Abcd12!@" "Abcd12!@").1 = true := by decide
example : (fieldRule .confirmPassword "" "Abcd12!@").1 = false := by decide
example : (fieldRule .confirmPassword "x" "Abcd12!@").1 = false := by decide
example : (fieldRule .age "13" "").1 = true := by decide
example : (fieldRule .age "120" "").1 = true := by decide
example : (fieldRule .age "12" "").1 = false := by decide
example : (fieldRule .age "121" "").1 = false := by decide
example : (fieldRule .age "abc" "").1 = false := by decide
example : (fieldRule .age "13abc" "").1 = true := by decide
example : (fieldRule .age "15.5" "").1 = true := by decide
example : (fieldRule .phone "" "").1 = true := by decide
example : (fieldRule .phone "(123) 456-7890" "").1 = true := by decide
example : (fieldRule .phone "12345" "").1 = false := by decide

example : onSubmit envPhoneBad = .ok (false, envPhoneBadAfter) := by rfl
example : onSubmit envStaleConfirm = .ok (false, envStaleConfirmAfter) := by rfl
example : onFieldEvent .password envC4Pre = .ok envC4AfterPwEvent := by rfl
example : onFieldEvent .confirmPassword envC4Pre = .ok envC4AfterConfirmEvent := by
  rfl

end FormApp
